import Mathlib

namespace PayU

/-! Shallow embedding of the django-getpaid-payu gateway integration.
Source: client.py (token refresh guard, unit conversion, request
construction) and processor.py (webhook signature handling, payment
reconciliation, status polling). -/

/-- Guard computed by the ensure_auth decorator (client.py, line 41):
the code re-authorizes iff `self.token_expiration < pendulum.now().add(seconds=-5)`,
that is, iff `token_expiration < now + (-5)`.  Times are modelled as rational
numbers of seconds on a common clock. -/
def ensure_auth_reauthorizes (token_expiration now : ℚ) : Bool :=
  decide (token_expiration < now + (-5))

/-- Modelled from the spec: the intended refresh guard of section 4.2,
re-authorize when `now >= expiry - 5s` (the token is treated as expired five
seconds before its nominal expiry). -/
def spec_reauthorizes (token_expiration now : ℚ) : Bool :=
  decide (token_expiration - 5 ≤ now)

/-! ## Unit converter (client.py, Client._centify and Client._normalize)

JSON-like values: `num` is an exact decimal/int amount (the spec mandates
exact decimal arithmetic), `txt` an ordinary string, `intStr` a string whose
content is the decimal rendering of an integer (the result of Python
`str(int(...))`), `obj` a dict with insertion-ordered fields, `arr` a list. -/

mutual

inductive JVal where
  | num (q : ℚ)
  | txt (s : String)
  | intStr (n : ℤ)
  | obj (fields : JFields)
  | arr (elems : JList)

inductive JFields where
  | nil
  | cons (key : String) (val : JVal) (rest : JFields)

inductive JList where
  | nil
  | cons (head : JVal) (rest : JList)

end

/-- The monetary field names, `Client._convertables` (client.py, line 50). -/
def convertables : List String :=
  ["amount", "total", "available", "unitPrice", "totalAmount"]

/-- Truncation toward zero of a rational, the behaviour of Python `int()` on
an exact Decimal value. -/
def pyInt (q : ℚ) : ℤ :=
  if 0 ≤ q then ⌊q⌋ else -⌊-q⌋

/-- Conversion applied by `_centify` to the value of a monetary field:
`str(int(v * 100))` (client.py, line 101).  Defined for numeric values; any
other operand is a Python type error, modelled as `none`. -/
def centifyMoney : JVal → Option JVal
  | .num q => some (.intStr (pyInt (q * 100)))
  | _ => none

/-- Conversion applied by `_normalize` to the value of a monetary field:
`Decimal(v) / 100` (client.py, line 118), exact by the spec.  Defined for
numeric values and integer strings; structured operands are type errors. -/
def normalizeMoney : JVal → Option JVal
  | .num q => some (.num (q / 100))
  | .intStr n => some (.num ((n : ℚ) / 100))
  | _ => none

mutual

def centify : JVal → Option JVal
  | .num q => some (.num q)
  | .txt s => some (.txt s)
  | .intStr n => some (.intStr n)
  | .obj fs => (centifyFields fs).map .obj
  | .arr es => (centifyList es).map .arr
termination_by structural v => v

def centifyFields : JFields → Option JFields
  | .nil => some .nil
  | .cons k v rest =>
    (if k ∈ convertables then centifyMoney v else centify v).bind fun w =>
      (centifyFields rest).map fun r => .cons k w r
termination_by structural fs => fs

def centifyList : JList → Option JList
  | .nil => some .nil
  | .cons v rest =>
    (centify v).bind fun w => (centifyList rest).map fun r => .cons w r
termination_by structural es => es

end

mutual

def normalize : JVal → Option JVal
  | .num q => some (.num q)
  | .txt s => some (.txt s)
  | .intStr n => some (.intStr n)
  | .obj fs => (normalizeFields fs).map .obj
  | .arr es => (normalizeList es).map .arr
termination_by structural v => v

def normalizeFields : JFields → Option JFields
  | .nil => some .nil
  | .cons k v rest =>
    (if k ∈ convertables then normalizeMoney v else normalize v).bind fun w =>
      (normalizeFields rest).map fun r => .cons k w r
termination_by structural fs => fs

def normalizeList : JList → Option JList
  | .nil => some .nil
  | .cons v rest =>
    (normalize v).bind fun w => (normalizeList rest).map fun r => .cons w r
termination_by structural es => es

end

/-- A value allowed under a monetary field name by the round-trip law: an
exact decimal with at most two fractional digits, i.e. a rational whose
reduced denominator divides 100. -/
def isGoodAmount : JVal → Bool
  | .num q => decide (q.den ∣ 100)
  | _ => false

mutual

def goodMoney : JVal → Bool
  | .num _ => true
  | .txt _ => true
  | .intStr _ => true
  | .obj fs => goodFields fs
  | .arr es => goodList es
termination_by structural v => v

def goodFields : JFields → Bool
  | .nil => true
  | .cons k v rest =>
    (if k ∈ convertables then isGoodAmount v else goodMoney v) && goodFields rest
termination_by structural fs => fs

def goodList : JList → Bool
  | .nil => true
  | .cons v rest => goodMoney v && goodList rest
termination_by structural es => es

end

mutual

def noMoneyKeys : JVal → Bool
  | .num _ => true
  | .txt _ => true
  | .intStr _ => true
  | .obj fs => noMoneyFields fs
  | .arr es => noMoneyList es
termination_by structural v => v

def noMoneyFields : JFields → Bool
  | .nil => true
  | .cons k v rest =>
    decide (k ∉ convertables) && noMoneyKeys v && noMoneyFields rest
termination_by structural fs => fs

def noMoneyList : JList → Bool
  | .nil => true
  | .cons v rest => noMoneyKeys v && noMoneyList rest
termination_by structural es => es

end

theorem pyInt_of_den_one {r : ℚ} (h : r.den = 1) : pyInt r = r.num := by
  have hr : (r.num : ℚ) = r := Rat.coe_int_num_of_den_eq_one h
  unfold pyInt
  by_cases h0 : 0 ≤ r
  · rw [if_pos h0, ← hr, Int.floor_intCast]
    simp [Rat.num_intCast]
  · rw [if_neg h0]
    have hneg : -r = ((-r.num : ℤ) : ℚ) := by
      rw [← hr]
      push_cast
      simp [Rat.num_intCast]
    rw [hneg, Int.floor_intCast]
    simp [Rat.num_intCast]

theorem den_dvd_hundred_mul {q : ℚ} (h : q.den ∣ 100) : (q * 100).den = 1 := by
  obtain ⟨k, hk⟩ := h
  have hden : (q.den : ℚ) ≠ 0 := by
    exact_mod_cast q.den_nz
  have h100 : (100 : ℚ) = (q.den : ℚ) * (k : ℚ) := by
    exact_mod_cast congrArg (fun n : ℕ => (n : ℚ)) hk
  have h1 : q * (q.den : ℚ) = (q.num : ℚ) := by
    nth_rewrite 1 [← Rat.num_div_den q]
    exact div_mul_cancel₀ _ hden
  have hq : q * 100 = ((q.num * k : ℤ) : ℚ) := by
    rw [h100, ← mul_assoc, h1]
    push_cast
    ring
  rw [hq, Rat.den_intCast]

theorem moneyPair {v : JVal} (h : isGoodAmount v = true) :
    ∃ w, centifyMoney v = some w ∧ normalizeMoney w = some v := by
  cases v with
  | num q =>
    have h' : (q * 100).den = 1 := by
      refine den_dvd_hundred_mul ?_
      simpa [isGoodAmount] using h
    have h1 : pyInt (q * 100) = (q * 100).num := pyInt_of_den_one h'
    have h2 : (((q * 100).num : ℤ) : ℚ) = q * 100 := Rat.coe_int_num_of_den_eq_one h'
    refine ⟨.intStr (pyInt (q * 100)), rfl, ?_⟩
    have h3 : ((pyInt (q * 100) : ℤ) : ℚ) / 100 = q := by
      rw [h1, h2]
      field_simp
    simp [normalizeMoney, h3]
  | txt s => simp [isGoodAmount] at h
  | intStr n => simp [isGoodAmount] at h
  | obj fs => simp [isGoodAmount] at h
  | arr es => simp [isGoodAmount] at h

mutual

theorem centify_normalize_val : ∀ (v : JVal), goodMoney v = true →
    ∃ w, centify v = some w ∧ normalize w = some v
  | .num q, _ => ⟨.num q, rfl, rfl⟩
  | .txt s, _ => ⟨.txt s, rfl, rfl⟩
  | .intStr n, _ => ⟨.intStr n, rfl, rfl⟩
  | .obj fs, h => by
    obtain ⟨w, hw1, hw2⟩ := centify_normalize_fields fs (by simpa [goodMoney] using h)
    exact ⟨.obj w, by simp [centify, hw1], by simp [normalize, hw2]⟩
  | .arr es, h => by
    obtain ⟨w, hw1, hw2⟩ := centify_normalize_list es (by simpa [goodMoney] using h)
    exact ⟨.arr w, by simp [centify, hw1], by simp [normalize, hw2]⟩

theorem centify_normalize_fields : ∀ (fs : JFields), goodFields fs = true →
    ∃ w, centifyFields fs = some w ∧ normalizeFields w = some fs
  | .nil, _ => ⟨.nil, rfl, rfl⟩
  | .cons k v rest, h => by
    have hand : (if k ∈ convertables then isGoodAmount v else goodMoney v) = true
        ∧ goodFields rest = true := by
      simpa [goodFields, Bool.and_eq_true] using h
    obtain ⟨w2, hw21, hw22⟩ := centify_normalize_fields rest hand.2
    by_cases hk : k ∈ convertables
    · have hv : isGoodAmount v = true := by simpa [hk] using hand.1
      obtain ⟨w1, hw11, hw12⟩ := moneyPair hv
      refine ⟨.cons k w1 w2, ?_, ?_⟩
      · simp [centifyFields, hk, hw11, hw21]
      · simp [normalizeFields, hk, hw12, hw22]
    · have hv : goodMoney v = true := by simpa [hk] using hand.1
      obtain ⟨w1, hw11, hw12⟩ := centify_normalize_val v hv
      refine ⟨.cons k w1 w2, ?_, ?_⟩
      · simp [centifyFields, hk, hw11, hw21]
      · simp [normalizeFields, hk, hw12, hw22]

theorem centify_normalize_list : ∀ (es : JList), goodList es = true →
    ∃ w, centifyList es = some w ∧ normalizeList w = some es
  | .nil, _ => ⟨.nil, rfl, rfl⟩
  | .cons v rest, h => by
    have hand : goodMoney v = true ∧ goodList rest = true := by
      simpa [goodList, Bool.and_eq_true] using h
    obtain ⟨w1, hw11, hw12⟩ := centify_normalize_val v hand.1
    obtain ⟨w2, hw21, hw22⟩ := centify_normalize_list rest hand.2
    refine ⟨.cons w1 w2, ?_, ?_⟩
    · simp [centifyList, hw11, hw21]
    · simp [normalizeList, hw12, hw22]

end

mutual

theorem centify_id_val : ∀ (v : JVal), noMoneyKeys v = true →
    centify v = some v ∧ normalize v = some v
  | .num q, _ => ⟨rfl, rfl⟩
  | .txt s, _ => ⟨rfl, rfl⟩
  | .intStr n, _ => ⟨rfl, rfl⟩
  | .obj fs, h => by
    obtain ⟨hw1, hw2⟩ := centify_id_fields fs (by simpa [noMoneyKeys] using h)
    exact ⟨by simp [centify, hw1], by simp [normalize, hw2]⟩
  | .arr es, h => by
    obtain ⟨hw1, hw2⟩ := centify_id_list es (by simpa [noMoneyKeys] using h)
    exact ⟨by simp [centify, hw1], by simp [normalize, hw2]⟩

theorem centify_id_fields : ∀ (fs : JFields), noMoneyFields fs = true →
    centifyFields fs = some fs ∧ normalizeFields fs = some fs
  | .nil, _ => ⟨rfl, rfl⟩
  | .cons k v rest, h => by
    have hand : k ∉ convertables ∧ noMoneyKeys v = true ∧ noMoneyFields rest = true := by
      simpa [noMoneyFields, Bool.and_eq_true, and_assoc] using h
    obtain ⟨hw11, hw12⟩ := centify_id_val v hand.2.1
    obtain ⟨hw21, hw22⟩ := centify_id_fields rest hand.2.2
    constructor
    · simp [centifyFields, hand.1, hw11, hw21]
    · simp [normalizeFields, hand.1, hw12, hw22]

theorem centify_id_list : ∀ (es : JList), noMoneyList es = true →
    centifyList es = some es ∧ normalizeList es = some es
  | .nil, _ => ⟨rfl, rfl⟩
  | .cons v rest, h => by
    have hand : noMoneyKeys v = true ∧ noMoneyList rest = true := by
      simpa [noMoneyList, Bool.and_eq_true] using h
    obtain ⟨hw11, hw12⟩ := centify_id_val v hand.1
    obtain ⟨hw21, hw22⟩ := centify_id_list rest hand.2
    constructor
    · simp [centifyList, hw11, hw21]
    · simp [normalizeList, hw12, hw22]

end

/-- A nested order payload: a monetary total, a plain description and a
product list with a monetary unit price, as built by Client.new_order. -/
def sampleOrder : JVal :=
  .obj (.cons "totalAmount" (.num (Rat.divInt 25 2))
    (.cons "description" (.txt "Payment order")
      (.cons "products"
        (.arr (.cons
          (.obj (.cons "unitPrice" (.num (Rat.divInt 399 100))
            (.cons "quantity" (.num 1) .nil)))
          .nil))
        .nil)))

/-- A payload with no monetary field names at all. -/
def sampleNoMoney : JVal :=
  .obj (.cons "description" (.txt "Refund")
    (.cons "tags" (.arr (.cons (.txt "a") (.cons (.num 7) .nil))) .nil))

/-- Claim C2: for every decimal value with at most two fractional digits
placed under a monetary field name (amount, total, available, unitPrice,
totalAmount) anywhere in a nested structure of mappings and sequences,
applying the minor-units conversion (_centify) and then the major-units
conversion (_normalize) yields the original value, and values containing no
monetary field names are left unchanged by both conversions. -/
theorem C2_roundtrip_law :
    (∀ v : JVal, goodMoney v = true → (centify v).bind normalize = some v)
    ∧ (∀ v : JVal, noMoneyKeys v = true →
        centify v = some v ∧ normalize v = some v) := by
  constructor
  · intro v h
    obtain ⟨w, hw1, hw2⟩ := centify_normalize_val v h
    simp [hw1, hw2]
  · intro v h
    exact centify_id_val v h

/-- Witness for C2 at a concrete nested order payload and a concrete
non-monetary payload. -/
theorem C2_roundtrip_law_witness :
    (centify sampleOrder).bind normalize = some sampleOrder
    ∧ (centify sampleNoMoney = some sampleNoMoney
        ∧ normalize sampleNoMoney = some sampleNoMoney) :=
  ⟨C2_roundtrip_law.1 sampleOrder (by decide),
   C2_roundtrip_law.2 sampleNoMoney (by decide)⟩

/-- Claim C1 evaluated on the code: with the token expiring 10 seconds after
time 0, the guard of ensure_auth does not re-authorize at t+6s (the claim and
the spec scenario require re-authorization there, since now is past
expiry - 5s), nor at t+3s; the code re-authorizes only once the token has
already been expired for more than five seconds (e.g. at t+16s but not even
at t+15s). -/
theorem C1_token_refresh_guard_bug :
    ensure_auth_reauthorizes 10 6 = false
    ∧ spec_reauthorizes 10 6 = true
    ∧ ensure_auth_reauthorizes 10 3 = false
    ∧ spec_reauthorizes 10 3 = false
    ∧ ensure_auth_reauthorizes 10 15 = false
    ∧ ensure_auth_reauthorizes 10 16 = true := by
  refine ⟨?_, ?_, ?_, ?_, ?_, ?_⟩ <;>
    simp [ensure_auth_reauthorizes, spec_reauthorizes] <;> norm_num

/-! ## Gateway client requests (client.py) -/

/-- An outbound HTTP request as issued through the requests library: the
method, the path handed to urljoin as its second argument, the headers from
Client._headers, and the optional serialized body. -/
structure HttpRequest where
  method : String
  path : String
  headers : List (String × String)
  body : Option JVal

/-- Client._headers (client.py, lines 86-89) with no extra kwargs. -/
def client_headers (token : String) : List (String × String) :=
  [("Authorization", token), ("Content-Type", "application/json")]

/-- The payload dict built by Client.capture (client.py, line 232):
`{"orderId": order_id, "orderStatus": OrderStatus.COMPLETED}`.  The
OrderStatus enum lives in the missing types module; its COMPLETED value is
rendered as the status string the spec enumerates. -/
def capture_payload (order_id : String) : JFields :=
  .cons "orderId" (.txt order_id) (.cons "orderStatus" (.txt "COMPLETED") .nil)

/-- The request issued by Client.capture (client.py, line 233):
`requests.put(url, headers=self._headers(**kwargs))` — no data argument is
passed, so the transmitted body is empty. -/
def capture_request (token order_id : String) : HttpRequest :=
  { method := "PUT"
    path := "/api/v2_1/orders/" ++ order_id ++ "/status"
    headers := client_headers token
    body := none }

/-- Claim C9: capture sends its PUT request to the orders/{id}/status
endpoint with headers only; the payload it constructs (orderId plus
orderStatus=COMPLETED) is never included, so the transmitted request body is
empty. -/
theorem C9_capture_body_empty (token order_id : String) :
    (capture_request token order_id).body = none
    ∧ (capture_request token order_id).method = "PUT"
    ∧ (capture_request token order_id).path
        = "/api/v2_1/orders/" ++ order_id ++ "/status"
    ∧ (capture_request token order_id).headers = client_headers token
    ∧ capture_payload order_id
        = .cons "orderId" (.txt order_id)
            (.cons "orderStatus" (.txt "COMPLETED") .nil) :=
  ⟨rfl, rfl, rfl, rfl, rfl⟩

/-- The refund body dict built by Client.refund (client.py, lines 204-206):
`{"description": description if description else "Refund"}`, with the amount
field added only when `amount` is truthy (Python: None and 0 are both
falsy). -/
def refund_request_data (amount : Option ℚ) (description : Option String) : JFields :=
  let desc : String :=
    match description with
    | some s => if s = "" then "Refund" else s
    | none => "Refund"
  match amount with
  | some a =>
    if a = 0 then .cons "description" (.txt desc) .nil
    else .cons "description" (.txt desc) (.cons "amount" (.num a) .nil)
  | none => .cons "description" (.txt desc) .nil

/-- The serialized refund payload (client.py, lines 207-209):
`{"refund": self._centify(data), "orderId": order_id}`. -/
def refund_payload (order_id : String) (amount : Option ℚ)
    (description : Option String) : Option JVal :=
  (centifyFields (refund_request_data amount description)).map fun r =>
    .obj (.cons "refund" (.obj r) (.cons "orderId" (.txt order_id) .nil))

/-- Claim C10: calling refund with amount 0 produces exactly the same request
payload as calling it with no amount at all; the amount field is dropped for
any falsy amount, so a zero-amount refund is indistinguishable from a
full-refund request. -/
theorem C10_zero_refund_eq_full_refund (order_id : String)
    (description : Option String) :
    refund_payload order_id (some 0) description
      = refund_payload order_id none description := by
  simp [refund_payload, refund_request_data]

/-! ## Webhook handling and reconciliation (processor.py)

The local payment is an external entity exposing guarded state transitions
(django-fsm style): `can_proceed` queries whether a transition is currently
legal, invoking a transition mutates the payment.  It is modelled as an
abstract state machine. -/

/-- The payment transition operations invoked by the processor. -/
inductive Effect where
  | confirm_prepared
  | confirm_lock
  | confirm_payment
  | mark_as_paid
  | confirm_refund (amount : ℚ)
  | cancel_refund
  | mark_as_refunded
  | fail
  deriving DecidableEq

/-- The local payment capability interface: a guard query and a transition
application over an abstract state type. -/
structure Fsm (σ : Type) where
  canProceed : σ → Effect → Bool
  apply : σ → Effect → σ

/-- Modelled from the spec: the OrderStatus enum of the missing types module,
with the status set of spec section 3; `other` covers any gateway status
string outside that set. -/
inductive GwOrderStatus where
  | NEW
  | PENDING
  | WAITING_FOR_CONFIRMATION
  | COMPLETED
  | CANCELED
  | other (s : String)
  deriving DecidableEq

/-- Modelled from the spec: the RefundStatus enum of the missing types
module; `other` covers any status string outside the mapped set. -/
inductive GwRefundStatus where
  | FINALIZED
  | CANCELED
  | other (s : String)
  deriving DecidableEq

/-- The parsed JSON body of a webhook: a top-level `order` object carrying an
optional status, a top-level `refund` object carrying an optional status and
an optional minor-units amount, or anything else. -/
inductive CallbackData where
  | order (status : Option GwOrderStatus)
  | refund (status : Option GwRefundStatus) (amount : Option ℚ)
  | other
  deriving DecidableEq

/-- Python exceptions escaping handle_paywall_callback. -/
inductive PyErr where
  | attributeError (name : String)
  | typeError (name : String)
  | valueError (msg : String)
  deriving DecidableEq

/-- Outcome of a completed handler run: HTTP status and body of the response,
the payment transitions invoked in order, the resulting payment state, and
whether payment.save() was reached. -/
structure CallbackResult (σ : Type) where
  httpStatus : Nat
  bodyText : String
  calls : List Effect
  payment : σ
  saved : Bool

/-- Resolution of the signature header (processor.py, lines 224-226):
`request.headers.get("Openpayu-Signature") or
request.headers.get("X-Openpayu-Signature", "")` — the first header if
truthy, else the second defaulting to the empty string. -/
def headerRaw (h1 h2 : Option String) : String :=
  match h1 with
  | some s => if s = "" then h2.getD "" else s
  | none => h2.getD ""

/-- Python str.split(sep) on a character list: splits at every occurrence of
the separator, keeping empty pieces. -/
def splitOnCharAux (c : Char) : List Char → List Char → List (List Char)
  | [], acc => [acc.reverse]
  | x :: xs, acc =>
    if x = c then acc.reverse :: splitOnCharAux c xs []
    else splitOnCharAux c xs (x :: acc)

def splitOnChar (c : Char) (l : List Char) : List (List Char) :=
  splitOnCharAux c l []

/-- One `k=v` piece of the signature header; a piece that does not split into
exactly two parts makes the handler raise (tuple unpacking error). -/
def parsePair (piece : List Char) : Option (String × String) :=
  match splitOnChar '=' piece with
  | [k, v] => some (k.asString, v.asString)
  | _ => none

/-- Parsing of the header into key/value pairs (processor.py, lines 235-237):
`{k: v for k, v in [i.split("=") for i in payu_header_raw.split(";")]}`. -/
def parseHeader (raw : String) : Option (List (String × String)) :=
  (splitOnChar ';' raw.toList).mapM parsePair

/-- Lookup in a Python dict built from an association list: the last binding
of a key wins. -/
def pyDictGet (l : List (String × String)) (k : String) : Option String :=
  match l with
  | [] => none
  | (k1, v) :: rest =>
    match pyDictGet rest k with
    | some r => some r
    | none => if k1 = k then some v else none

/-- The transformation `algo_name.replace("-", "").lower()` applied before
the hashlib lookup (processor.py, line 241). -/
def normalizeAlgo (s : String) : String :=
  ((s.toList.filter (fun c => c ≠ '-')).map Char.toLower).asString

/-- Attribute names of the Python hashlib module (external stdlib, modelled
for the dynamic getattr step), each paired with whether calling the attribute
on a single bytes argument and taking hexdigest() yields a digest string.
scrypt, pbkdf2_hmac and new are attributes but not one-argument hash
constructors; the shake constructors need a length argument for hexdigest. -/
def hashlibAttrs : List (String × Bool) :=
  [("md5", true), ("sha1", true), ("sha224", true), ("sha256", true),
   ("sha384", true), ("sha512", true), ("sha3_224", true), ("sha3_256", true),
   ("sha3_384", true), ("sha3_512", true), ("blake2b", true), ("blake2s", true),
   ("shake_128", false), ("shake_256", false),
   ("new", false), ("pbkdf2_hmac", false), ("scrypt", false),
   ("algorithms_guaranteed", false), ("algorithms_available", false)]

/-- The name the handler passes to the dynamic attribute lookup
`getattr(hashlib, ...)` for a given raw signature header: the normalized
algorithm field, defaulting to MD5, with no allow-list applied. -/
def algoLookupName (raw : String) : Option String :=
  (parseHeader raw).map fun hdr =>
    normalizeAlgo ((pyDictGet hdr "algorithm").getD "MD5")

/-- Reconciliation of a parsed webhook body against the payment
(processor.py, lines 250-292): the order branch dispatches on OrderStatus,
the refund branch on RefundStatus; `can_proceed`-guarded transitions are
skipped silently, CANCELED-order fail, FINALIZED-refund confirm_refund and
CANCELED-refund cancel_refund are invoked unguarded.  A FINALIZED refund
without an amount raises (None / 100). -/
def processData {σ : Type} (fsm : Fsm σ) (payment : σ) :
    CallbackData → Except PyErr (σ × List Effect)
  | .order st =>
    match st with
    | some .COMPLETED =>
      if fsm.canProceed payment .confirm_payment then
        let p1 := fsm.apply payment .confirm_payment
        if fsm.canProceed p1 .mark_as_paid then
          .ok (fsm.apply p1 .mark_as_paid, [.confirm_payment, .mark_as_paid])
        else .ok (p1, [.confirm_payment])
      else .ok (payment, [])
    | some .CANCELED => .ok (fsm.apply payment .fail, [.fail])
    | some .WAITING_FOR_CONFIRMATION =>
      if fsm.canProceed payment .confirm_lock then
        .ok (fsm.apply payment .confirm_lock, [.confirm_lock])
      else .ok (payment, [])
    | _ => .ok (payment, [])
  | .refund st amt =>
    match st with
    | some .FINALIZED =>
      match amt with
      | none => .error (.typeError "unsupported operand type for div: NoneType")
      | some a =>
        let amount := a / 100
        let p1 := fsm.apply payment (.confirm_refund amount)
        if fsm.canProceed p1 .mark_as_refunded then
          .ok (fsm.apply p1 .mark_as_refunded, [.confirm_refund amount, .mark_as_refunded])
        else .ok (p1, [.confirm_refund amount])
    | some .CANCELED =>
      let p1 := fsm.apply payment .cancel_refund
      if fsm.canProceed p1 .mark_as_paid then
        .ok (fsm.apply p1 .mark_as_paid, [.cancel_refund, .mark_as_paid])
      else .ok (p1, [.cancel_refund])
    | _ => .ok (payment, [])
  | .other => .ok (payment, [])

/-- PaymentProcessor.handle_paywall_callback (processor.py, lines 222-302).
Inputs: the abstract payment machine and current payment state, the digest
oracle (algorithm name and message to hex digest, standing for the hashlib
hash functions), the configured second_key, the two possible signature
headers, the raw request body, and its parsed JSON content.  Missing
signature gives HTTP 400 before anything else; a well-formed header has its
algorithm field resolved by dynamic lookup with no allow-list (unknown names
raise AttributeError, non-hash attributes raise TypeError); the expected
signature is the digest of body ++ second_key; mismatch gives HTTP 422 with
no transition and no save; match reconciles the body and saves. -/
def handle_paywall_callback {σ : Type} (fsm : Fsm σ)
    (digest : String → String → String) (second_key : String)
    (hdr1 hdr2 : Option String) (body : String) (data : CallbackData)
    (payment : σ) : Except PyErr (CallbackResult σ) :=
  let raw := headerRaw hdr1 hdr2
  if raw = "" then
    .ok ⟨400, "NO SIGNATURE", [], payment, false⟩
  else
    match parseHeader raw with
    | none => .error (.valueError "not enough values to unpack")
    | some hdr =>
      let algoName := (pyDictGet hdr "algorithm").getD "MD5"
      let signature := pyDictGet hdr "signature"
      let resolved := normalizeAlgo algoName
      match (hashlibAttrs.filter (fun p => p.1 = resolved)).head? with
      | none => .error (.attributeError resolved)
      | some attr =>
        if attr.2 then
          let expected := digest resolved (body ++ second_key)
          if signature = some expected then
            match processData fsm payment data with
            | .error e => .error e
            | .ok (p1, calls) => .ok ⟨200, "OK", calls, p1, true⟩
          else
            .ok ⟨422, "BAD SIGNATURE", [], payment, false⟩
        else .error (.typeError resolved)

/-- PaymentProcessor.fetch_payment_status (processor.py, lines 304-320),
reduced to its status dispatch: the callback name put into the results dict
for the first order status of the getOrderInfo response, none when the
status is unmapped. -/
def fetch_payment_status (status : Option GwOrderStatus) : Option String :=
  match status with
  | some .NEW => some "confirm_prepared"
  | some .PENDING => some "confirm_prepared"
  | some .CANCELED => some "fail"
  | some .COMPLETED => some "confirm_payment"
  | some .WAITING_FOR_CONFIRMATION => some "confirm_lock"
  | _ => none

/-- A concrete well-formed signature header claiming digest deadbeef under
SHA-256 from sender 300746. -/
def sigHeader : String := "signature=deadbeef;algorithm=SHA-256;sender=300746"

theorem parseHeader_sigHeader :
    parseHeader sigHeader
      = some [("signature", "deadbeef"), ("algorithm", "SHA-256"),
              ("sender", "300746")] := by
  rfl

/-- Evaluation of the handler on the concrete sigHeader: everything up to the
signature comparison is concrete, so the run reduces to comparing the claimed
deadbeef with the digest of body ++ second_key and then reconciling. -/
theorem handle_sigHeader_eq {σ : Type} (fsm : Fsm σ)
    (d : String → String → String) (key body : String) (data : CallbackData)
    (p : σ) :
    handle_paywall_callback fsm d key (some sigHeader) none body data p
      = if (some "deadbeef" : Option String) = some (d "sha256" (body ++ key)) then
          match processData fsm p data with
          | .error e => .error e
          | .ok (p1, calls) => .ok ⟨200, "OK", calls, p1, true⟩
        else .ok ⟨422, "BAD SIGNATURE", [], p, false⟩ := by
  rfl

/-- A permissive payment machine: every transition is always legal and leaves
the state unchanged. -/
def wFsm : Fsm Nat :=
  { canProceed := fun _ _ => true, apply := fun s _ => s }

/-- A three-state payment machine on which confirm_payment is legal only in
state 0 (leading to 1) and mark_as_paid only in state 1 (leading to 2). -/
def idemFsm : Fsm Nat :=
  { canProceed := fun s e =>
      match e with
      | .confirm_payment => s == 0
      | .mark_as_paid => s == 1
      | _ => true
    apply := fun s e =>
      match e with
      | .confirm_payment => 1
      | .mark_as_paid => 2
      | _ => s }

/-- Claim C7: the webhook endpoint returns HTTP 200 when the signature
verifies, HTTP 400 when the signature header is missing, and HTTP 422 when
the computed signature does not match the claimed one; in the 400 and 422
cases no payment transition is invoked and the payment is not saved. -/
theorem C7_webhook_http_statuses {σ : Type} (fsm : Fsm σ) (p p1 : σ)
    (d1 d2 : String → String → String) (key body : String)
    (data : CallbackData) (calls : List Effect)
    (h1 : d1 "sha256" (body ++ key) = "deadbeef")
    (h2 : d2 "sha256" (body ++ key) ≠ "deadbeef")
    (h3 : processData fsm p data = .ok (p1, calls)) :
    handle_paywall_callback fsm d1 key none none body data p
      = .ok ⟨400, "NO SIGNATURE", [], p, false⟩
    ∧ handle_paywall_callback fsm d1 key (some sigHeader) none body data p
      = .ok ⟨200, "OK", calls, p1, true⟩
    ∧ handle_paywall_callback fsm d2 key (some sigHeader) none body data p
      = .ok ⟨422, "BAD SIGNATURE", [], p, false⟩ := by
  refine ⟨rfl, ?_, ?_⟩
  · rw [handle_sigHeader_eq, h1, if_pos rfl, h3]
  · rw [handle_sigHeader_eq, if_neg]
    simpa [eq_comm] using h2

/-- Witness for C7: a missing header yields 400, a matching digest yields 200
with the payment saved, a mismatching digest yields 422 with no transition
and no save. -/
theorem C7_webhook_http_statuses_witness :
    handle_paywall_callback wFsm (fun _ _ => "deadbeef") "k" none none "b"
        .other 0
      = .ok ⟨400, "NO SIGNATURE", [], 0, false⟩
    ∧ handle_paywall_callback wFsm (fun _ _ => "deadbeef") "k" (some sigHeader)
        none "b" .other 0
      = .ok ⟨200, "OK", [], 0, true⟩
    ∧ handle_paywall_callback wFsm (fun _ _ => "nope") "k" (some sigHeader)
        none "b" .other 0
      = .ok ⟨422, "BAD SIGNATURE", [], 0, false⟩ :=
  C7_webhook_http_statuses wFsm 0 0 (fun _ _ => "deadbeef") (fun _ _ => "nope")
    "k" "b" .other [] rfl (by decide) rfl

/-- Claim C4: for a validly-signed webhook body
refund/status=FINALIZED/amount=500, the handler invokes confirm_refund with
amount 500 / 100 = 5, and then mark_as_refunded exactly when the payment
state reached after confirm_refund allows that transition. -/
theorem C4_refund_finalized_flow {σ : Type} (fsm : Fsm σ) (p : σ)
    (d : String → String → String) (key body : String)
    (h : d "sha256" (body ++ key) = "deadbeef") :
    handle_paywall_callback fsm d key (some sigHeader) none body
        (.refund (some .FINALIZED) (some 500)) p
      = if fsm.canProceed (fsm.apply p (.confirm_refund 5)) .mark_as_refunded then
          .ok ⟨200, "OK", [.confirm_refund 5, .mark_as_refunded],
               fsm.apply (fsm.apply p (.confirm_refund 5)) .mark_as_refunded, true⟩
        else
          .ok ⟨200, "OK", [.confirm_refund 5],
               fsm.apply p (.confirm_refund 5), true⟩ := by
  rw [handle_sigHeader_eq, h, if_pos rfl]
  have h500 : (500 : ℚ) / 100 = 5 := by norm_num
  simp only [processData, h500]
  by_cases hc : fsm.canProceed (fsm.apply p (.confirm_refund 5)) .mark_as_refunded
  · simp [hc]
  · simp [hc]

/-- Witness for C4 on the permissive machine: confirm_refund(5) then
mark_as_refunded are invoked. -/
theorem C4_refund_finalized_flow_witness :
    handle_paywall_callback wFsm (fun _ _ => "deadbeef") "k" (some sigHeader)
        none "b" (.refund (some .FINALIZED) (some 500)) 0
      = .ok ⟨200, "OK", [.confirm_refund 5, .mark_as_refunded], 0, true⟩ := by
  simpa [wFsm] using
    C4_refund_finalized_flow wFsm 0 (fun _ _ => "deadbeef") "k" "b" rfl

/-- Claim C5: applying the same COMPLETED order notification twice yields
exactly one mark_as_paid: the first run (state permitting) invokes
confirm_payment then mark_as_paid, the second run invokes nothing because
can_proceed(confirm_payment) no longer holds in the reached state. -/
theorem C5_completed_idempotent {σ : Type} (fsm : Fsm σ) (p : σ)
    (d : String → String → String) (key body : String)
    (h : d "sha256" (body ++ key) = "deadbeef")
    (h1 : fsm.canProceed p .confirm_payment = true)
    (h2 : fsm.canProceed (fsm.apply p .confirm_payment) .mark_as_paid = true)
    (h3 : fsm.canProceed
        (fsm.apply (fsm.apply p .confirm_payment) .mark_as_paid)
        .confirm_payment = false) :
    handle_paywall_callback fsm d key (some sigHeader) none body
        (.order (some .COMPLETED)) p
      = .ok ⟨200, "OK", [.confirm_payment, .mark_as_paid],
             fsm.apply (fsm.apply p .confirm_payment) .mark_as_paid, true⟩
    ∧ handle_paywall_callback fsm d key (some sigHeader) none body
        (.order (some .COMPLETED))
        (fsm.apply (fsm.apply p .confirm_payment) .mark_as_paid)
      = .ok ⟨200, "OK", [],
             fsm.apply (fsm.apply p .confirm_payment) .mark_as_paid, true⟩ := by
  constructor
  · rw [handle_sigHeader_eq, h, if_pos rfl]
    simp [processData, h1, h2]
  · rw [handle_sigHeader_eq, h, if_pos rfl]
    simp [processData, h3]

/-- Witness for C5 on the three-state machine: the first delivery moves
0 to 2 invoking both transitions, the second delivery invokes nothing. -/
theorem C5_completed_idempotent_witness :
    handle_paywall_callback idemFsm (fun _ _ => "deadbeef") "k" (some sigHeader)
        none "b" (.order (some .COMPLETED)) 0
      = .ok ⟨200, "OK", [.confirm_payment, .mark_as_paid], 2, true⟩
    ∧ handle_paywall_callback idemFsm (fun _ _ => "deadbeef") "k" (some sigHeader)
        none "b" (.order (some .COMPLETED)) 2
      = .ok ⟨200, "OK", [], 2, true⟩ :=
  C5_completed_idempotent idemFsm 0 (fun _ _ => "deadbeef") "k" "b"
    rfl rfl rfl rfl

/-- Claim C8: an unmapped gateway order or refund status in a validly-signed
webhook invokes no transition and still answers HTTP 200 with the payment
saved, and status polling returns no callback entry for an unmapped order
status. -/
theorem C8_unmapped_statuses_ignored {σ : Type} (fsm : Fsm σ) (p : σ)
    (d : String → String → String) (key body s : String) (amt : Option ℚ)
    (h : d "sha256" (body ++ key) = "deadbeef") :
    handle_paywall_callback fsm d key (some sigHeader) none body
        (.order (some (.other s))) p
      = .ok ⟨200, "OK", [], p, true⟩
    ∧ handle_paywall_callback fsm d key (some sigHeader) none body
        (.refund (some (.other s)) amt) p
      = .ok ⟨200, "OK", [], p, true⟩
    ∧ fetch_payment_status (some (.other s)) = none := by
  refine ⟨?_, ?_, rfl⟩
  · rw [handle_sigHeader_eq, h, if_pos rfl]
    simp [processData]
  · rw [handle_sigHeader_eq, h, if_pos rfl]
    simp [processData]

/-- Witness for C8 at the unmapped status REFUNDED. -/
theorem C8_unmapped_statuses_ignored_witness :
    handle_paywall_callback wFsm (fun _ _ => "deadbeef") "k" (some sigHeader)
        none "b" (.order (some (.other "REFUNDED"))) 0
      = .ok ⟨200, "OK", [], 0, true⟩
    ∧ handle_paywall_callback wFsm (fun _ _ => "deadbeef") "k" (some sigHeader)
        none "b" (.refund (some (.other "REFUNDED")) none) 0
      = .ok ⟨200, "OK", [], 0, true⟩
    ∧ fetch_payment_status (some (.other "REFUNDED")) = none :=
  C8_unmapped_statuses_ignored wFsm 0 (fun _ _ => "deadbeef") "k" "b"
    "REFUNDED" none rfl

/-- Claim C3 evaluated on the code: the algorithm name taken from the
attacker-supplied header is passed to the dynamic hashlib attribute lookup
with no allow-list applied — for algorithm=scrypt the lookup resolves
hashlib.scrypt (not a hash constructor) and the run dies with a TypeError,
and for an arbitrary name the lookup is still attempted, dying with an
AttributeError; neither case is the outright rejection the claim
requires. -/
theorem C3_no_algorithm_allowlist :
    algoLookupName "signature=00;algorithm=scrypt;sender=1" = some "scrypt"
    ∧ handle_paywall_callback wFsm (fun _ _ => "deadbeef") "k"
        (some "signature=00;algorithm=scrypt;sender=1") none "b" .other 0
      = .error (.typeError "scrypt")
    ∧ algoLookupName "signature=00;algorithm=sha3-512;sender=1" = some "sha3512"
    ∧ handle_paywall_callback wFsm (fun _ _ => "deadbeef") "k"
        (some "signature=00;algorithm=sha3-512;sender=1") none "b" .other 0
      = .error (.attributeError "sha3512") :=
  ⟨rfl, rfl, rfl, rfl⟩

/-- Payment state after invoking a list of transitions in order. -/
def applyEffects {σ : Type} (fsm : Fsm σ) (p : σ) (l : List Effect) : σ :=
  l.foldl fsm.apply p

/-- The transitions the webhook handler invokes for each gateway order status
when every guard permits. -/
def webhookOrderTable : Option GwOrderStatus → List Effect
  | some .COMPLETED => [.confirm_payment, .mark_as_paid]
  | some .CANCELED => [.fail]
  | some .WAITING_FOR_CONFIRMATION => [.confirm_lock]
  | _ => []

/-- The transition list corresponding to a callback name returned by
fetch_payment_status. -/
def callbackEffects : Option String → List Effect
  | some "confirm_prepared" => [.confirm_prepared]
  | some "confirm_lock" => [.confirm_lock]
  | some "confirm_payment" => [.confirm_payment]
  | some "fail" => [.fail]
  | _ => []

/-- Counterexample to claim C6: for status NEW a validly-signed webhook
invokes no transition at all (the handler has no NEW/PENDING branch), while
the polling path returns the confirm_prepared callback — the two paths are
not identical. -/
theorem C6_paths_differ_on_NEW :
    handle_paywall_callback wFsm (fun _ _ => "deadbeef") "k" (some sigHeader)
        none "b" (.order (some .NEW)) 0
      = .ok ⟨200, "OK", [], 0, true⟩
    ∧ fetch_payment_status (some .NEW) = some "confirm_prepared"
    ∧ ([] : List Effect) ≠ [.confirm_prepared] := by
  refine ⟨rfl, rfl, by decide⟩

/-- Claim C6 amended: with all guards permitting, the webhook handler applies
webhookOrderTable (confirm_payment then mark_as_paid for COMPLETED, fail for
CANCELED, confirm_lock for WAITING_FOR_CONFIRMATION, and nothing for
NEW/PENDING or unmapped statuses), while polling yields confirm_prepared for
NEW/PENDING, confirm_payment alone for COMPLETED, fail for CANCELED and
confirm_lock for WAITING_FOR_CONFIRMATION; the two paths therefore apply
identical transitions exactly for the statuses other than NEW, PENDING and
COMPLETED. -/
theorem C6_paths_characterized {σ : Type} (fsm : Fsm σ) (p : σ)
    (d : String → String → String) (key body : String)
    (status : Option GwOrderStatus)
    (h : d "sha256" (body ++ key) = "deadbeef")
    (hperm : ∀ s e, fsm.canProceed s e = true) :
    handle_paywall_callback fsm d key (some sigHeader) none body
        (.order status) p
      = .ok ⟨200, "OK", webhookOrderTable status,
             applyEffects fsm p (webhookOrderTable status), true⟩
    ∧ (callbackEffects (fetch_payment_status status) = webhookOrderTable status
        ↔ status ≠ some .NEW ∧ status ≠ some .PENDING
            ∧ status ≠ some .COMPLETED) := by
  constructor
  · rw [handle_sigHeader_eq, h, if_pos rfl]
    rcases status with _ | st
    · simp [processData, webhookOrderTable, applyEffects]
    · cases st <;>
        simp [processData, hperm, webhookOrderTable, applyEffects]
  · rcases status with _ | st
    · simp [fetch_payment_status, callbackEffects, webhookOrderTable]
    · cases st <;>
        simp [fetch_payment_status, callbackEffects, webhookOrderTable]

/-- Witness for the amended C6 at status COMPLETED: the webhook applies
confirm_payment then mark_as_paid while polling yields confirm_payment only,
so the paths disagree there. -/
theorem C6_paths_characterized_witness :
    handle_paywall_callback wFsm (fun _ _ => "deadbeef") "k" (some sigHeader)
        none "b" (.order (some .COMPLETED)) 0
      = .ok ⟨200, "OK", [.confirm_payment, .mark_as_paid], 0, true⟩
    ∧ callbackEffects (fetch_payment_status (some .COMPLETED))
        ≠ webhookOrderTable (some .COMPLETED) := by
  have h := C6_paths_characterized wFsm 0 (fun _ _ => "deadbeef") "k" "b"
    (some .COMPLETED) rfl (fun _ _ => rfl)
  refine ⟨by simpa [webhookOrderTable, applyEffects, wFsm] using h.1, ?_⟩
  intro hc
  have := h.2.mp hc
  simp at this

end PayU
